import Mathlib

/-!
Verification of the epos-react-hook printer connection manager.

This file is a shallow embedding of the repository's core:
* `eposClient.js` (the `EposClient` class): constructor, `setSdkUrl`,
  `setEndpoint`, `getEndpoint`, `loadSdk`, `connect`, `createPrinter`,
  `isConnected`, `disconnect`, `getPrinter`;
* `constants/index.js` (`PRINTER_STATUS`) and `utilities/index.js`
  (`isValidPrinterStatus`);
* `useEposPrinter.js` (the React hook's `connect`/`disconnect` wrappers),
  modelled at call-completion granularity.

The vendor SDK is external; its observable behaviour at each suspension
point (script-load outcome, connect callback code, createDevice callback
code, deleteDevice callback / synchronous throw, device.disconnect throw,
device.isConnected result) is supplied by an `SdkEnv` record, and each
SDK primitive invocation is recorded in a trace of `SdkEvent`s.
JavaScript object identity of SDK device objects and printer device
objects is modelled by natural-number ids.
-/

/-- A JavaScript runtime value, as far as the claims need to distinguish
them.  `object`, `array` and `boxedString` carry a reference id: two such
values are the same JS value only if they are the same reference. -/
inductive JSValue where
  | str (s : String)
  | num (n : Int)
  | boolean (b : Bool)
  | null
  | undefined
  | object (id : Nat)
  | array (id : Nat)
  | boxedString (id : Nat) (s : String)
deriving DecidableEq, Repr

/-- JavaScript SameValueZero comparison, as used by `Array.prototype.includes`.
A primitive string equals only an identical primitive string; objects,
arrays and boxed strings compare by reference identity. -/
def sameValueZero : JSValue → JSValue → Bool
  | JSValue.str a, JSValue.str b => a = b
  | JSValue.num a, JSValue.num b => a = b
  | JSValue.boolean a, JSValue.boolean b => a = b
  | JSValue.null, JSValue.null => true
  | JSValue.undefined, JSValue.undefined => true
  | JSValue.object a, JSValue.object b => a = b
  | JSValue.array a, JSValue.array b => a = b
  | JSValue.boxedString a _, JSValue.boxedString b _ => a = b
  | _, _ => false

/-- JavaScript `typeof v === "number"`. -/
def jsTypeofNumber : JSValue → Bool
  | JSValue.num _ => true
  | _ => false

/-- The `PRINTER_STATUS` constant object from `constants/index.js`. -/
structure PrinterStatusConsts where
  IDLE : String
  CONNECTING : String
  CONNECTED : String
  ERROR : String

def PRINTER_STATUS : PrinterStatusConsts :=
  { IDLE := "idle", CONNECTING := "connecting",
    CONNECTED := "connected", ERROR := "error" }

/-- `Object.values(PRINTER_STATUS)` (insertion order of the object literal). -/
def printerStatusValues : List String :=
  [PRINTER_STATUS.IDLE, PRINTER_STATUS.CONNECTING,
   PRINTER_STATUS.CONNECTED, PRINTER_STATUS.ERROR]

/-- `isValidPrinterStatus` from `utilities/index.js`:
`Object.values(PRINTER_STATUS).includes(status)`, where `includes`
compares with SameValueZero. -/
def isValidPrinterStatus (status : JSValue) : Bool :=
  printerStatusValues.any fun v => sameValueZero (JSValue.str v) status

/-- The mutable fields of an `EposClient` instance.  `device` is the
SessionHandle (the `ePOSDevice` instance id, or `none` for JS `null`);
`printer` is the PrinterDeviceHandle id. -/
structure ClientState where
  device : Option Nat
  printer : Option Nat
  sdkUrl : String
  ip : String
  port : Int
  sdkLoaded : Bool
deriving DecidableEq, Repr

/-- One invocation of an SDK primitive (or of script injection), recorded
in program order. -/
inductive SdkEvent where
  | loadSdkScript (url : String)
  | newDevice (id : Nat)
  | connectCall (dev : Nat) (ip : String) (port : Int)
  | createDeviceCall (dev : Nat) (deviceId : String)
  | deleteDeviceCall (dev : Nat) (printerId : Nat)
  | deviceDisconnectCall (dev : Nat)
deriving DecidableEq, Repr

/-- The vendor SDK's behaviour at each suspension point of one client
operation.  `live d` / `liveThrows d` describe `device.isConnected()` on
device `d`; `hasDeleteDevice` is whether `device.deleteDevice` is defined
(per the SDK contract it always is); `deleteThrows` selects the
synchronous-throw path of `deleteDevice` over the callback path;
`disconnectThrows` is whether `device.disconnect()` throws. -/
structure SdkEnv where
  live : Nat → Bool
  liveThrows : Nat → Bool
  epsonPresent : Bool
  scriptLoadSucceeds : Bool
  epsonAfterLoad : Bool
  connectResult : String
  createResult : String
  createdPrinterId : Nat
  hasDeleteDevice : Bool
  deleteThrows : Bool
  disconnectThrows : Bool

/-- Constructor options `{ sdkUrl, ip, port }`; `none` is an absent field. -/
structure EposOptions where
  sdkUrl : Option String
  ip : Option String
  port : Option Int

/-- JavaScript falsiness of an optional string: absent (`undefined`) or
empty. -/
def jsFalsyStr : Option String → Bool
  | none => true
  | some s => s = ""

/-- The `EposClient` constructor: `this.device = null; this.printer = null`,
then `if (!sdkUrl) throw`, `if (!ip) throw`, then stores the endpoints
(port defaulting to 8043) and `this.sdkLoaded = false`.  A throw is an
`Except.error` carrying the message. -/
def mkEposClient (opts : EposOptions) : Except String ClientState :=
  if jsFalsyStr opts.sdkUrl then
    Except.error "EposClient requires sdkUrl in constructor options."
  else if jsFalsyStr opts.ip then
    Except.error "EposClient requires printer IP in constructor options."
  else
    Except.ok
      { device := none, printer := none,
        sdkUrl := opts.sdkUrl.getD "", ip := opts.ip.getD "",
        port := opts.port.getD 8043, sdkLoaded := false }

/-- `setSdkUrl(sdkUrl)`: replaces the URL and clears the loaded flag. -/
def setSdkUrl (s : ClientState) (sdkUrl : String) : ClientState :=
  { s with sdkUrl := sdkUrl, sdkLoaded := false }

/-- `setEndpoint(ip, port)`: `this.ip = ip; if (typeof port === "number")
this.port = port;`.  The port argument is an arbitrary JS value. -/
def setEndpoint (s : ClientState) (ip : String) (port : JSValue) : ClientState :=
  match port with
  | JSValue.num n => { s with ip := ip, port := n }
  | _ => { s with ip := ip }

/-- `getEndpoint()`. -/
def getEndpoint (s : ClientState) : String × Int := (s.ip, s.port)

/-- `getPrinter()`. -/
def getPrinter (s : ClientState) : Option Nat := s.printer

/-- `isConnected()`: `!!(this.device && this.device?.isConnected())`,
with any exception from the underlying check caught and treated as
`false`. -/
def isConnected (env : SdkEnv) (s : ClientState) : Bool :=
  match s.device with
  | none => false
  | some d => if env.liveThrows d then false else env.live d

/-- `loadSdk()`: if the loaded flag is set or the SDK global is already
present, mark loaded and return; otherwise inject the script and resolve
or reject with the load outcome (the attach-to-existing-script branch has
the same observable outcomes). -/
def loadSdk (env : SdkEnv) (s : ClientState) :
    Except String Unit × ClientState × List SdkEvent :=
  if s.sdkLoaded || env.epsonPresent then
    (Except.ok (), { s with sdkLoaded := true }, [])
  else if env.scriptLoadSucceeds then
    (Except.ok (), { s with sdkLoaded := true },
      [SdkEvent.loadSdkScript s.sdkUrl])
  else
    (Except.error "Failed to load Epson SDK", s,
      [SdkEvent.loadSdkScript s.sdkUrl])

/-- The `cleanup` closure of `disconnect()`:
`try { this.device.disconnect() } catch (err) { warn }` followed by
`this.device = null; this.printer = null; resolve()`.  Both the throwing
and the non-throwing branch of the try/catch continue to the nulling. -/
def runCleanup (env : SdkEnv) (s : ClientState) (d : Nat) :
    ClientState × List SdkEvent :=
  if env.disconnectThrows then
    ({ s with device := none, printer := none },
      [SdkEvent.deviceDisconnectCall d])
  else
    ({ s with device := none, printer := none },
      [SdkEvent.deviceDisconnectCall d])

/-- `disconnect()`: resolve immediately with no device; else, when a
printer exists and `deleteDevice` is defined, invoke `deleteDevice` —
on its completion callback, or after catching its synchronous throw, run
`cleanup`; otherwise run `cleanup` directly.  The promise executor only
ever calls `resolve`, so the operation cannot reject: its result type has
no error case. -/
def disconnect (env : SdkEnv) (s : ClientState) : ClientState × List SdkEvent :=
  match s.device with
  | none => (s, [])
  | some d =>
    match s.printer with
    | some p =>
      if env.hasDeleteDevice then
        if env.deleteThrows then
          ((runCleanup env s d).1,
            SdkEvent.deleteDeviceCall d p :: (runCleanup env s d).2)
        else
          ((runCleanup env s d).1,
            SdkEvent.deleteDeviceCall d p :: (runCleanup env s d).2)
      else
        runCleanup env s d
    | none => runCleanup env s d

/-- Steps 3–5 of `connect()` (after the already-connected and stale-cleanup
checks): `await loadSdk()`, resolve effective ip/port
(`ipOverride ?? this.ip`), throw if no ip, check the SDK global, then
`this.device = new window.epson.ePOSDevice()` (`freshDev` is the id the
allocator hands out) and `this.device.connect(ip, port, handleConnect,
{eposprint: true})`; the callback resolves on `"OK"` / `"SSL_CONNECT_OK"`
and rejects with `"Failed to connect: " + result` otherwise. -/
def connectCore (env : SdkEnv) (freshDev : Nat) (ipOverride : Option String)
    (portOverride : Option Int) (s : ClientState) :
    Except String Unit × ClientState × List SdkEvent :=
  match loadSdk env s with
  | (Except.error e, s1, es1) => (Except.error e, s1, es1)
  | (Except.ok _, s1, es1) =>
    let ip := ipOverride.getD s1.ip
    let port := portOverride.getD s1.port
    if ip = "" then
      (Except.error
        "Printer IP not provided. Pass in constructor, setEndpoint(), or connect(ip, port).",
        s1, es1)
    else if env.epsonAfterLoad then
      if env.connectResult = "OK" ∨ env.connectResult = "SSL_CONNECT_OK" then
        (Except.ok (), { s1 with device := some freshDev },
          es1 ++ [SdkEvent.newDevice freshDev,
                  SdkEvent.connectCall freshDev ip port])
      else
        (Except.error ("Failed to connect: " ++ env.connectResult),
          { s1 with device := some freshDev },
          es1 ++ [SdkEvent.newDevice freshDev,
                  SdkEvent.connectCall freshDev ip port])
    else
      (Except.error "Epson ePOS SDK not available after load.", s1, es1)

/-- `connect(ipOverride, portOverride)`: step 1, if `isConnected()` return
(no SDK activity); step 2, if a (stale) `this.device` exists, `await
this.disconnect()`; then `connectCore`. -/
def connect (env : SdkEnv) (freshDev : Nat) (ipOverride : Option String)
    (portOverride : Option Int) (s : ClientState) :
    Except String Unit × ClientState × List SdkEvent :=
  if isConnected env s then
    (Except.ok (), s, [])
  else
    match s.device with
    | some _ =>
      ((connectCore env freshDev ipOverride portOverride (disconnect env s).1).1,
       (connectCore env freshDev ipOverride portOverride (disconnect env s).1).2.1,
       (disconnect env s).2 ++
         (connectCore env freshDev ipOverride portOverride (disconnect env s).1).2.2)
    | none => connectCore env freshDev ipOverride portOverride s

/-- `createPrinter(deviceId, deviceType)`: reject if no device; resolve
with the existing printer object if one exists (no SDK call); otherwise
invoke `createDevice` — its callback stores the returned object on
`"OK"` and rejects with `"CreateDevice failed: " + result` otherwise. -/
def createPrinter (env : SdkEnv) (deviceId : String) (s : ClientState) :
    Except String Nat × ClientState × List SdkEvent :=
  match s.device with
  | none => (Except.error "Device not connected.", s, [])
  | some d =>
    match s.printer with
    | some p => (Except.ok p, s, [])
    | none =>
      if env.createResult = "OK" then
        (Except.ok env.createdPrinterId,
          { s with printer := some env.createdPrinterId },
          [SdkEvent.createDeviceCall d deviceId])
      else
        (Except.error ("CreateDevice failed: " ++ env.createResult), s,
          [SdkEvent.createDeviceCall d deviceId])

/-- The state exposed by one `useEposPrinter` instance, together with the
SDK-side fact `live`: whether the SDK currently reports the session held
by the client (if any) as live.  `live` is not part of the hook's own
state; it models the external printer connection. -/
structure HookWorld where
  client : ClientState
  printerRef : Option Nat
  status : String
  error : Option String
  live : Bool
deriving DecidableEq, Repr

/-- The SDK outcomes governing one wrapper call (everything of `SdkEnv`
except the liveness report, which the world tracks), plus the id the
allocator would hand to a freshly constructed device. -/
structure SdkBehavior where
  epsonPresent : Bool
  scriptLoadSucceeds : Bool
  epsonAfterLoad : Bool
  connectResult : String
  createResult : String
  createdPrinterId : Nat
  freshDev : Nat
  hasDeleteDevice : Bool
  deleteThrows : Bool
  disconnectThrows : Bool

/-- Builds the `SdkEnv` for one wrapper call: the SDK reports the held
session live exactly when the world says so, and the check never throws. -/
def mkHookEnv (b : SdkBehavior) (live : Bool) : SdkEnv :=
  { live := fun _ => live, liveThrows := fun _ => false,
    epsonPresent := b.epsonPresent,
    scriptLoadSucceeds := b.scriptLoadSucceeds,
    epsonAfterLoad := b.epsonAfterLoad,
    connectResult := b.connectResult, createResult := b.createResult,
    createdPrinterId := b.createdPrinterId,
    hasDeleteDevice := b.hasDeleteDevice, deleteThrows := b.deleteThrows,
    disconnectThrows := b.disconnectThrows }

/-- The hook's `connect` wrapper, at completion: sets status `connecting`
and clears the error (transient, not the completed state), awaits
`client.connect()` then `client.createPrinter()`; on success stores the
printer object and status `connected`, returning it; on any failure
records the message, status `error`, nulls the printer ref and returns
null.  The world's `live` flag afterwards: `true` on the success path
(the SDK just connected, or the reused session was live), `false` after a
`connect` failure (any still-held device object was never connected),
unchanged by a `createPrinter` failure (the connected session stays up,
which the success-path update already covers). -/
def hookConnect (b : SdkBehavior) (w : HookWorld) : HookWorld × Option Nat :=
  match connect (mkHookEnv b w.live) b.freshDev none none w.client with
  | (Except.error e, c1, _) =>
    ({ client := c1, printerRef := none, status := PRINTER_STATUS.ERROR,
       error := some e, live := false }, none)
  | (Except.ok _, c1, _) =>
    match createPrinter (mkHookEnv b w.live) "local_printer" c1 with
    | (Except.ok pr, c2, _) =>
      ({ client := c2, printerRef := some pr,
         status := PRINTER_STATUS.CONNECTED, error := none, live := true },
        some pr)
    | (Except.error e, c2, _) =>
      ({ client := c2, printerRef := none, status := PRINTER_STATUS.ERROR,
         error := some e, live := true }, none)

/-- The hook's `disconnect` wrapper: awaits `client.disconnect()`, nulls
the printer ref and resets status to `idle` (the error message is not
touched by the source).  No session remains, so no session is live. -/
def hookDisconnect (b : SdkBehavior) (w : HookWorld) : HookWorld :=
  { client := (disconnect (mkHookEnv b w.live) w.client).1,
    printerRef := none, status := PRINTER_STATUS.IDLE,
    error := w.error, live := false }

/-- The world right after `useEposPrinter(ip, sdkUrl, port)` mounts: a
freshly constructed client, null printer ref, status `idle`, no error. -/
def initWorld (sdkUrl ip : String) (port : Int) : HookWorld :=
  { client := { device := none, printer := none, sdkUrl := sdkUrl,
                ip := ip, port := port, sdkLoaded := false },
    printerRef := none, status := PRINTER_STATUS.IDLE,
    error := none, live := false }

/-- Worlds reachable through the hook's wrappers, allowing the underlying
SDK session to stop reporting live between calls (`drop`: the printer
goes away; the hook has no monitoring, so its state is untouched). -/
inductive HookReach : HookWorld → Prop where
  | init (sdkUrl ip : String) (port : Int) :
      HookReach (initWorld sdkUrl ip port)
  | stepConnect (b : SdkBehavior) {w : HookWorld} :
      HookReach w → HookReach (hookConnect b w).1
  | stepDisconnect (b : SdkBehavior) {w : HookWorld} :
      HookReach w → HookReach (hookDisconnect b w)
  | drop {w : HookWorld} :
      HookReach w → HookReach { w with live := false }

/-- Worlds reachable through the wrappers alone: the SDK's liveness
report changes only as a result of the wrapper calls themselves. -/
inductive HookReachCalls : HookWorld → Prop where
  | init (sdkUrl ip : String) (port : Int) :
      HookReachCalls (initWorld sdkUrl ip port)
  | stepConnect (b : SdkBehavior) {w : HookWorld} :
      HookReachCalls w → HookReachCalls (hookConnect b w).1
  | stepDisconnect (b : SdkBehavior) {w : HookWorld} :
      HookReachCalls w → HookReachCalls (hookDisconnect b w)

/-- Client states reachable through the `EposClient` API: construction
followed by any sequence of the public operations, under arbitrary SDK
behaviours.  This is what "every EposClient" quantifies over. -/
inductive ClientReach : ClientState → Prop where
  | init (opts : EposOptions) (c : ClientState) :
      mkEposClient opts = Except.ok c → ClientReach c
  | stepSetSdkUrl (u : String) {c : ClientState} :
      ClientReach c → ClientReach (setSdkUrl c u)
  | stepSetEndpoint (i : String) (p : JSValue) {c : ClientState} :
      ClientReach c → ClientReach (setEndpoint c i p)
  | stepLoadSdk (env : SdkEnv) {c : ClientState} :
      ClientReach c → ClientReach (loadSdk env c).2.1
  | stepConnect (env : SdkEnv) (f : Nat) (oi : Option String)
      (op : Option Int) {c : ClientState} :
      ClientReach c → ClientReach (connect env f oi op c).2.1
  | stepCreatePrinter (env : SdkEnv) (devId : String) {c : ClientState} :
      ClientReach c → ClientReach (createPrinter env devId c).2.1
  | stepDisconnect (env : SdkEnv) {c : ClientState} :
      ClientReach c → ClientReach (disconnect env c).1

lemma isConnected_device_isSome {env : SdkEnv} {s : ClientState}
    (h : isConnected env s = true) : s.device.isSome = true := by
  unfold isConnected at h
  cases hd : s.device with
  | none => rw [hd] at h; exact absurd h (by simp)
  | some d => rfl

lemma runCleanup_eq (env : SdkEnv) (s : ClientState) (d : Nat) :
    runCleanup env s d =
      ({ s with device := none, printer := none },
        [SdkEvent.deviceDisconnectCall d]) := by
  unfold runCleanup; split <;> rfl

lemma disconnect_of_none {env : SdkEnv} {s : ClientState}
    (h : s.device = none) : disconnect env s = (s, []) := by
  unfold disconnect; rw [h]

lemma disconnect_of_some {env : SdkEnv} {s : ClientState} {d : Nat}
    (h : s.device = some d) :
    (disconnect env s).1 = { s with device := none, printer := none } := by
  unfold disconnect
  rw [h]
  cases hp : s.printer with
  | none => simp [runCleanup_eq]
  | some p =>
    by_cases hdel : env.hasDeleteDevice <;>
      by_cases hthr : env.deleteThrows <;>
      simp [hdel, hthr, runCleanup_eq]

lemma disconnect_snd_shape (env : SdkEnv) (s : ClientState) :
    (disconnect env s).2 = [] ∨
    (∃ d, (disconnect env s).2 = [SdkEvent.deviceDisconnectCall d]) ∨
    (∃ d p, (disconnect env s).2 =
      [SdkEvent.deleteDeviceCall d p, SdkEvent.deviceDisconnectCall d]) := by
  unfold disconnect
  cases hd : s.device with
  | none => exact Or.inl rfl
  | some d =>
    cases hp : s.printer with
    | none => exact Or.inr (Or.inl ⟨d, by simp [runCleanup_eq]⟩)
    | some p =>
      by_cases hdel : env.hasDeleteDevice
      · by_cases hthr : env.deleteThrows
        · exact Or.inr (Or.inr ⟨d, p, by simp [hdel, hthr, runCleanup_eq]⟩)
        · exact Or.inr (Or.inr ⟨d, p, by simp [hdel, hthr, runCleanup_eq]⟩)
      · exact Or.inr (Or.inl ⟨d, by simp [hdel, runCleanup_eq]⟩)

lemma loadSdk_state (env : SdkEnv) (s : ClientState) :
    (loadSdk env s).2.1.device = s.device ∧
    (loadSdk env s).2.1.printer = s.printer ∧
    (loadSdk env s).2.1.ip = s.ip ∧ (loadSdk env s).2.1.port = s.port := by
  unfold loadSdk
  by_cases h1 : (s.sdkLoaded || env.epsonPresent : Bool)
  · simp [h1]
  · by_cases h2 : env.scriptLoadSucceeds <;> simp [h1, h2]

lemma connectCore_printer (env : SdkEnv) (f : Nat) (oi : Option String)
    (op : Option Int) (s : ClientState) :
    (connectCore env f oi op s).2.1.printer = s.printer := by
  unfold connectCore
  cases hl : loadSdk env s with
  | mk r rest =>
    have hp : rest.1.printer = s.printer := by
      have := (loadSdk_state env s).2.1
      rw [hl] at this; exact this
    cases r with
    | error e => simpa using hp
    | ok u =>
      simp only []
      split
      · simpa using hp
      · split
        · split <;> simpa using hp
        · simpa using hp

lemma connectCore_device (env : SdkEnv) (f : Nat) (oi : Option String)
    (op : Option Int) (s : ClientState) :
    (connectCore env f oi op s).2.1.device = s.device ∨
    (connectCore env f oi op s).2.1.device = some f := by
  unfold connectCore
  cases hl : loadSdk env s with
  | mk r rest =>
    have hd : rest.1.device = s.device := by
      have := (loadSdk_state env s).1
      rw [hl] at this; exact this
    cases r with
    | error e => exact Or.inl (by simpa using hd)
    | ok u =>
      simp only []
      split
      · exact Or.inl (by simpa using hd)
      · split
        · split <;> exact Or.inr (by simp)
        · exact Or.inl (by simpa using hd)

lemma clientReach_printer_device {c : ClientState} (h : ClientReach c) :
    c.device = none → c.printer = none := by
  induction h with
  | init opts c hmk =>
    intro _
    unfold mkEposClient at hmk
    by_cases h1 : jsFalsyStr opts.sdkUrl
    · simp [h1] at hmk
    · by_cases h2 : jsFalsyStr opts.ip
      · simp [h1, h2] at hmk
      · simp [h1, h2] at hmk
        rw [← hmk]
  | stepSetSdkUrl u h ih => intro hd; exact ih hd
  | stepSetEndpoint i p h ih =>
    intro hd
    unfold setEndpoint at hd ⊢
    cases p <;> simp at hd ⊢ <;> exact ih hd
  | stepLoadSdk env h ih =>
    intro hd
    rename_i c0
    have hs := loadSdk_state env c0
    rw [hs.2.1]
    exact ih (hs.1 ▸ hd)
  | stepConnect env f oi op h ih =>
    intro hd
    rename_i c0
    unfold connect at hd ⊢
    by_cases hc : isConnected env c0
    · simp [hc] at hd ⊢; exact ih hd
    · simp only [hc, if_neg, Bool.false_eq_true, if_false] at hd ⊢
      cases hdev : c0.device with
      | some d =>
        simp only [hdev] at hd ⊢
        rw [connectCore_printer]
        rw [disconnect_of_some hdev]
      | none =>
        simp only [hdev] at hd ⊢
        rw [connectCore_printer]
        exact ih hdev
  | stepCreatePrinter env devId h ih =>
    intro hd
    rename_i c0
    unfold createPrinter at hd ⊢
    cases hdev : c0.device with
    | none => simp [hdev] at hd ⊢; exact ih hdev
    | some d =>
      simp only [hdev] at hd ⊢
      cases hp : c0.printer with
      | some p => simp [hp] at hd ⊢; exact absurd hd (by simp [hdev])
      | none =>
        simp only [hp] at hd ⊢
        by_cases hok : env.createResult = "OK"
        · simp [hok] at hd
        · simp [hok] at hd ⊢; exact hp
  | stepDisconnect env h ih =>
    intro hd
    rename_i c0
    cases hdev : c0.device with
    | none => rw [disconnect_of_none hdev]; exact ih hdev
    | some d => rw [disconnect_of_some hdev]

/-- An SDK behaviour in which everything succeeds and the session reports
live; used as a concrete instantiation in witnesses. -/
def envLive : SdkEnv :=
  { live := fun _ => true, liveThrows := fun _ => false,
    epsonPresent := true, scriptLoadSucceeds := true, epsonAfterLoad := true,
    connectResult := "OK", createResult := "OK", createdPrinterId := 7,
    hasDeleteDevice := true, deleteThrows := false, disconnectThrows := false }

/-- A freshly constructed client (the result of the constructor with
`sdkUrl = "/sdk.js"`, `ip = "10.0.0.5"` and no port). -/
def baseState : ClientState :=
  { device := none, printer := none, sdkUrl := "/sdk.js",
    ip := "10.0.0.5", port := 8043, sdkLoaded := false }

/-- A client holding both a session handle and a printer handle. -/
def connectedState : ClientState :=
  { device := some 1, printer := some 7, sdkUrl := "/sdk.js",
    ip := "10.0.0.5", port := 8043, sdkLoaded := true }

/-- C2: while `isConnected()` reports true, a further `connect()` call
resolves as a pure no-op: result `ok`, state unchanged (the single
existing SessionHandle is kept) and an empty SDK trace — in particular no
new device-session object is instantiated and the SDK connect primitive
is not invoked again. -/
theorem connect_is_idempotent_when_connected (env : SdkEnv) (f : Nat)
    (oi : Option String) (op : Option Int) (s : ClientState)
    (h : isConnected env s = true) :
    connect env f oi op s = (Except.ok (), s, []) := by
  unfold connect; rw [if_pos h]

theorem connect_is_idempotent_when_connected_witness :
    isConnected envLive connectedState = true ∧
    connect envLive 2 none none connectedState =
      (Except.ok (), connectedState, []) :=
  ⟨by decide,
    connect_is_idempotent_when_connected envLive 2 none none connectedState
      (by decide)⟩

/-- C3: on every API-reachable client and under every behaviour of the SDK
teardown primitives (`deleteDevice` and `disconnect` succeeding or
throwing — both fields of `env` are universally quantified), after
`disconnect()` resolves both handles are null, `getPrinter()` returns null
and `isConnected()` returns false.  That `disconnect()` never rejects is
expressed by its result type, which has no error case: the source promise
executor only ever calls `resolve`. -/
theorem disconnect_clears_all_handles (env : SdkEnv) (s : ClientState)
    (h : ClientReach s) :
    (disconnect env s).1.device = none ∧
    (disconnect env s).1.printer = none ∧
    getPrinter (disconnect env s).1 = none ∧
    (∀ env2 : SdkEnv, isConnected env2 (disconnect env s).1 = false) := by
  cases hd : s.device with
  | none =>
    rw [disconnect_of_none hd]
    have hp := clientReach_printer_device h hd
    exact ⟨hd, hp, hp, fun env2 => by simp [isConnected, hd]⟩
  | some d =>
    rw [disconnect_of_some hd]
    exact ⟨rfl, rfl, rfl, fun env2 => rfl⟩

theorem disconnect_clears_all_handles_witness :
    (disconnect envLive baseState).1.device = none ∧
    (disconnect envLive baseState).1.printer = none ∧
    getPrinter (disconnect envLive baseState).1 = none ∧
    (∀ env2 : SdkEnv, isConnected env2 (disconnect envLive baseState).1 = false) :=
  disconnect_clears_all_handles envLive baseState
    (ClientReach.init
      { sdkUrl := some "/sdk.js", ip := some "10.0.0.5", port := none }
      baseState (by rfl))

/-- C4: whenever `disconnect()` runs on a client holding both a
SessionHandle and a PrinterDeviceHandle (which, per the SDK contract, has
the `deleteDevice` primitive defined), the SDK trace is exactly the
delete-device invocation followed by the session-disconnect invocation —
device deletion strictly precedes session close, whether the delete call
completes via its callback or throws synchronously (`env.deleteThrows`
is unconstrained). -/
theorem disconnect_deletes_device_before_session_close (env : SdkEnv)
    (s : ClientState) (d p : Nat) (hd : s.device = some d)
    (hp : s.printer = some p) (hdel : env.hasDeleteDevice = true) :
    (disconnect env s).2 =
      [SdkEvent.deleteDeviceCall d p, SdkEvent.deviceDisconnectCall d] := by
  unfold disconnect
  simp only [hd, hp, hdel, if_true]
  by_cases hthr : env.deleteThrows <;> simp [hthr, runCleanup_eq]

theorem disconnect_deletes_device_before_session_close_witness :
    (disconnect envLive connectedState).2 =
      [SdkEvent.deleteDeviceCall 1 7, SdkEvent.deviceDisconnectCall 1] :=
  disconnect_deletes_device_before_session_close envLive connectedState 1 7
    (by decide) (by decide) (by decide)

/-- C6: after a successful `connect()` (a SessionHandle exists, no printer
yet) and one successful `createPrinter()` (the create callback reported
`"OK"`), the first call stores the created handle and issues exactly one
`createDevice` invocation, and a second `createPrinter()` call — under any
SDK behaviour and device id — resolves with the same PrinterDeviceHandle,
leaves the state unchanged, and issues no SDK call at all. -/
theorem createPrinter_is_idempotent (env : SdkEnv) (devId : String)
    (s : ClientState) (d : Nat) (hd : s.device = some d)
    (hp : s.printer = none) (hok : env.createResult = "OK") :
    createPrinter env devId s =
      (Except.ok env.createdPrinterId,
        { s with printer := some env.createdPrinterId },
        [SdkEvent.createDeviceCall d devId]) ∧
    (∀ (env2 : SdkEnv) (devId2 : String),
      createPrinter env2 devId2 { s with printer := some env.createdPrinterId } =
        (Except.ok env.createdPrinterId,
          { s with printer := some env.createdPrinterId }, [])) := by
  constructor
  · unfold createPrinter; simp [hd, hp, hok]
  · intro env2 devId2
    unfold createPrinter; simp [hd]

theorem createPrinter_is_idempotent_witness :
    createPrinter envLive "local_printer"
        { baseState with device := some 1 } =
      (Except.ok 7, { baseState with device := some 1, printer := some 7 },
        [SdkEvent.createDeviceCall 1 "local_printer"]) ∧
    createPrinter envLive "local_printer"
        { baseState with device := some 1, printer := some 7 } =
      (Except.ok 7, { baseState with device := some 1, printer := some 7 },
        []) := by
  have h := createPrinter_is_idempotent envLive "local_printer"
    { baseState with device := some 1 } 1 (by decide) (by decide) (by decide)
  exact ⟨h.1, h.2 envLive "local_printer"⟩

/-- C8: `isValidPrinterStatus` returns true exactly on the four canonical
primitive strings; every other string and every non-string JS value
(null, undefined, numbers, booleans, objects, arrays, boxed strings)
yields false, with exact case-sensitive comparison and no coercion. -/
theorem isValidPrinterStatus_iff_canonical (v : JSValue) :
    isValidPrinterStatus v = true ↔
      (v = JSValue.str "idle" ∨ v = JSValue.str "connecting" ∨
       v = JSValue.str "connected" ∨ v = JSValue.str "error") := by
  cases v with
  | str s =>
    simp only [isValidPrinterStatus, printerStatusValues, PRINTER_STATUS,
      sameValueZero, List.any_cons, List.any_nil, Bool.or_eq_true,
      Bool.or_false, decide_eq_true_eq, JSValue.str.injEq]
    constructor
    · rintro (h | h | h | h)
      · exact Or.inl h.symm
      · exact Or.inr (Or.inl h.symm)
      · exact Or.inr (Or.inr (Or.inl h.symm))
      · exact Or.inr (Or.inr (Or.inr h.symm))
    · rintro (h | h | h | h)
      · exact Or.inl h.symm
      · exact Or.inr (Or.inl h.symm)
      · exact Or.inr (Or.inr (Or.inl h.symm))
      · exact Or.inr (Or.inr (Or.inr h.symm))
  | num n =>
    simp [isValidPrinterStatus, printerStatusValues, PRINTER_STATUS,
      sameValueZero]
  | boolean b =>
    simp [isValidPrinterStatus, printerStatusValues, PRINTER_STATUS,
      sameValueZero]
  | null =>
    simp [isValidPrinterStatus, printerStatusValues, PRINTER_STATUS,
      sameValueZero]
  | undefined =>
    simp [isValidPrinterStatus, printerStatusValues, PRINTER_STATUS,
      sameValueZero]
  | object id =>
    simp [isValidPrinterStatus, printerStatusValues, PRINTER_STATUS,
      sameValueZero]
  | array id =>
    simp [isValidPrinterStatus, printerStatusValues, PRINTER_STATUS,
      sameValueZero]
  | boxedString id s =>
    simp [isValidPrinterStatus, printerStatusValues, PRINTER_STATUS,
      sameValueZero]

/-- C9: constructing without `sdkUrl` throws a configuration error whose
message mentions `sdkUrl`; constructing (with an sdkUrl) without an ip
throws one mentioning the printer IP requirement; constructing with both
but no port yields effective port 8043 and a state with no session or
device handle. -/
theorem constructor_validation_and_defaults :
    (∀ (ipOpt : Option String) (portOpt : Option Int),
      mkEposClient { sdkUrl := none, ip := ipOpt, port := portOpt } =
          Except.error "EposClient requires sdkUrl in constructor options." ∧
        "sdkUrl".toList <:+:
          "EposClient requires sdkUrl in constructor options.".toList) ∧
    (∀ (u : String) (portOpt : Option Int), u ≠ "" →
      mkEposClient { sdkUrl := some u, ip := none, port := portOpt } =
          Except.error
            "EposClient requires printer IP in constructor options." ∧
        "printer IP".toList <:+:
          "EposClient requires printer IP in constructor options.".toList) ∧
    (∀ u i : String, u ≠ "" → i ≠ "" →
      mkEposClient { sdkUrl := some u, ip := some i, port := none } =
        Except.ok { device := none, printer := none, sdkUrl := u, ip := i,
                    port := 8043, sdkLoaded := false }) := by
  refine ⟨fun ipOpt portOpt => ⟨rfl, by decide⟩, ?_, ?_⟩
  · intro u portOpt hu
    exact ⟨by simp [mkEposClient, jsFalsyStr, hu], by decide⟩
  · intro u i hu hi
    simp [mkEposClient, jsFalsyStr, hu, hi]

theorem constructor_validation_and_defaults_witness :
    mkEposClient { sdkUrl := none, ip := some "10.0.0.5", port := none } =
        Except.error "EposClient requires sdkUrl in constructor options." ∧
    mkEposClient { sdkUrl := some "/sdk.js", ip := none, port := none } =
        Except.error "EposClient requires printer IP in constructor options." ∧
    mkEposClient { sdkUrl := some "/sdk.js", ip := some "10.0.0.5",
                   port := none } =
      Except.ok baseState :=
  ⟨(constructor_validation_and_defaults.1 (some "10.0.0.5") none).1,
   (constructor_validation_and_defaults.2.1 "/sdk.js" none (by decide)).1,
   constructor_validation_and_defaults.2.2 "/sdk.js" "10.0.0.5"
     (by decide) (by decide)⟩

/-- C10: `setEndpoint(ip, port)` always replaces the stored host, replaces
the stored port only when the supplied port is of JS number type (a
non-number port such as the string "9100", null or undefined leaves the
port unchanged), and modifies no field other than host and port. -/
theorem setEndpoint_replaces_host_guards_port (s : ClientState) (ip : String)
    (port : JSValue) :
    (setEndpoint s ip port).ip = ip ∧
    (jsTypeofNumber port = false → (setEndpoint s ip port).port = s.port) ∧
    (∀ n : Int, port = JSValue.num n → (setEndpoint s ip port).port = n) ∧
    (setEndpoint s ip port).device = s.device ∧
    (setEndpoint s ip port).printer = s.printer ∧
    (setEndpoint s ip port).sdkUrl = s.sdkUrl ∧
    (setEndpoint s ip port).sdkLoaded = s.sdkLoaded := by
  cases port <;> simp [setEndpoint, jsTypeofNumber]

lemma loadSdk_ok {env : SdkEnv} {s : ClientState}
    (h : s.sdkLoaded = true ∨ env.epsonPresent = true ∨
      env.scriptLoadSucceeds = true) :
    ∃ es, loadSdk env s = (Except.ok (), { s with sdkLoaded := true }, es) := by
  unfold loadSdk
  by_cases h1 : (s.sdkLoaded || env.epsonPresent : Bool)
  · exact ⟨[], by simp [h1]⟩
  · have h2 : env.scriptLoadSucceeds = true := by
      rcases h with h | h | h
      · exact absurd (by simp [h]) h1
      · exact absurd (by simp [h]) h1
      · exact h
    exact ⟨[SdkEvent.loadSdkScript s.sdkUrl], by simp [h1, h2]⟩

lemma connectCore_failed (env : SdkEnv) (f : Nat) (oi : Option String)
    (op : Option Int) (s : ClientState)
    (hload : s.sdkLoaded = true ∨ env.epsonPresent = true ∨
      env.scriptLoadSucceeds = true)
    (hip : oi.getD s.ip ≠ "")
    (hsdk : env.epsonAfterLoad = true)
    (hbad1 : env.connectResult ≠ "OK")
    (hbad2 : env.connectResult ≠ "SSL_CONNECT_OK") :
    (connectCore env f oi op s).1 =
      Except.error ("Failed to connect: " ++ env.connectResult) ∧
    (connectCore env f oi op s).2.1.device = some f := by
  obtain ⟨es, hes⟩ := loadSdk_ok hload
  unfold connectCore
  rw [hes]
  dsimp only
  rw [if_neg hip, if_pos hsdk, if_neg (not_or.mpr ⟨hbad1, hbad2⟩)]
  exact ⟨rfl, rfl⟩

/-- An SDK behaviour whose connect callback reports a failure code. -/
def envFail : SdkEnv :=
  { live := fun _ => false, liveThrows := fun _ => false,
    epsonPresent := true, scriptLoadSucceeds := true, epsonAfterLoad := true,
    connectResult := "ERR_TIMEOUT", createResult := "OK",
    createdPrinterId := 7, hasDeleteDevice := true, deleteThrows := false,
    disconnectThrows := false }

/-- C1 counterexample: on a freshly constructed (API-reachable) client,
a `connect()` whose SDK callback reports `"ERR_TIMEOUT"` rejects with that
code, but the session-handle field is NOT null afterwards: `connect`
assigns `this.device = new ePOSDevice()` before the callback and never
resets it on failure, so the field holds the fresh device instance. -/
theorem connect_failure_retains_device_cex :
    ClientReach baseState ∧
    (connect envFail 1 none none baseState).1 =
      Except.error "Failed to connect: ERR_TIMEOUT" ∧
    (connect envFail 1 none none baseState).2.1.device ≠ none := by
  refine ⟨ClientReach.init
    { sdkUrl := some "/sdk.js", ip := some "10.0.0.5", port := none }
    baseState rfl, rfl, by decide⟩

/-- C1 (amended): whenever `connect()` reaches the SDK connect callback
and the callback reports a non-success code (neither `"OK"` nor
`"SSL_CONNECT_OK"`), the call rejects with an error embedding that raw
code; the session-handle field is, however, not restored to null — it is
left holding the freshly instantiated, never-connected device object. -/
theorem connect_failure_keeps_fresh_device (env : SdkEnv) (f : Nat)
    (oi : Option String) (op : Option Int) (s : ClientState)
    (hnc : isConnected env s = false)
    (hload : s.sdkLoaded = true ∨ env.epsonPresent = true ∨
      env.scriptLoadSucceeds = true)
    (hip : oi.getD s.ip ≠ "")
    (hsdk : env.epsonAfterLoad = true)
    (hbad1 : env.connectResult ≠ "OK")
    (hbad2 : env.connectResult ≠ "SSL_CONNECT_OK") :
    (connect env f oi op s).1 =
      Except.error ("Failed to connect: " ++ env.connectResult) ∧
    (connect env f oi op s).2.1.device = some f := by
  unfold connect
  rw [if_neg (by simp [hnc])]
  cases hd : s.device with
  | none =>
    exact connectCore_failed env f oi op s hload hip hsdk hbad1 hbad2
  | some d =>
    rw [disconnect_of_some hd]
    dsimp only
    exact connectCore_failed env f oi op _ hload hip hsdk hbad1 hbad2

theorem connect_failure_keeps_fresh_device_witness :
    (connect envFail 1 none none baseState).1 =
      Except.error ("Failed to connect: " ++ envFail.connectResult) ∧
    (connect envFail 1 none none baseState).2.1.device = some 1 :=
  connect_failure_keeps_fresh_device envFail 1 none none baseState
    (by decide) (Or.inr (Or.inl (by decide))) (by decide) (by decide)
    (by decide) (by decide)

lemma disconnect_snd_of_some {env : SdkEnv} {s : ClientState} {d : Nat}
    (hd : s.device = some d) :
    (disconnect env s).2 = [SdkEvent.deviceDisconnectCall d] ∨
    ∃ p, (disconnect env s).2 =
      [SdkEvent.deleteDeviceCall d p, SdkEvent.deviceDisconnectCall d] := by
  unfold disconnect
  rw [hd]
  cases hp : s.printer with
  | none => exact Or.inl (by simp [runCleanup_eq])
  | some p =>
    by_cases hdel : env.hasDeleteDevice
    · by_cases hthr : env.deleteThrows
      · exact Or.inr ⟨p, by simp [hdel, hthr, runCleanup_eq]⟩
      · exact Or.inr ⟨p, by simp [hdel, hthr, runCleanup_eq]⟩
    · exact Or.inl (by simp [hdel, runCleanup_eq])

/-- C5: when a stale SessionHandle exists (`device` non-null) but
`isConnected()` reports false, `connect()` runs as a full `disconnect()`
followed by the fresh-session sequence `connectCore` (SDK load, device
instantiation, connect primitive): its result, state and trace decompose
accordingly; the teardown nulls both handles before the new sequence
starts; the teardown trace invokes the session-disconnect primitive and
contains no script-load, device-instantiation or connect-primitive
event — so the deletion/disconnect primitives strictly precede the new
connect primitive. -/
theorem connect_self_heals_stale_session (env : SdkEnv) (f : Nat)
    (oi : Option String) (op : Option Int) (s : ClientState) (d : Nat)
    (hd : s.device = some d) (hnc : isConnected env s = false) :
    connect env f oi op s =
      ((connectCore env f oi op (disconnect env s).1).1,
       (connectCore env f oi op (disconnect env s).1).2.1,
       (disconnect env s).2 ++
         (connectCore env f oi op (disconnect env s).1).2.2) ∧
    (disconnect env s).1.device = none ∧
    (disconnect env s).1.printer = none ∧
    SdkEvent.deviceDisconnectCall d ∈ (disconnect env s).2 ∧
    (∀ dev ip2 pt, SdkEvent.connectCall dev ip2 pt ∉ (disconnect env s).2) ∧
    (∀ dev, SdkEvent.newDevice dev ∉ (disconnect env s).2) ∧
    (∀ url, SdkEvent.loadSdkScript url ∉ (disconnect env s).2) := by
  refine ⟨?_, ?_, ?_, ?_, ?_, ?_, ?_⟩
  · unfold connect
    rw [if_neg (by simp [hnc])]
    rw [hd]
  · rw [disconnect_of_some hd]
  · rw [disconnect_of_some hd]
  · rcases @disconnect_snd_of_some env _ _ hd with h | ⟨p, h⟩ <;>
      simp [h]
  · intro dev ip2 pt
    rcases @disconnect_snd_of_some env _ _ hd with h | ⟨p, h⟩ <;>
      simp [h]
  · intro dev
    rcases @disconnect_snd_of_some env _ _ hd with h | ⟨p, h⟩ <;>
      simp [h]
  · intro url
    rcases @disconnect_snd_of_some env _ _ hd with h | ⟨p, h⟩ <;>
      simp [h]

theorem connect_self_heals_stale_session_witness :
    connect envFail 2 none none connectedState =
      ((connectCore envFail 2 none none
          (disconnect envFail connectedState).1).1,
       (connectCore envFail 2 none none
          (disconnect envFail connectedState).1).2.1,
       (disconnect envFail connectedState).2 ++
         (connectCore envFail 2 none none
            (disconnect envFail connectedState).1).2.2) ∧
    (disconnect envFail connectedState).1.device = none ∧
    (disconnect envFail connectedState).1.printer = none ∧
    SdkEvent.deviceDisconnectCall 1 ∈ (disconnect envFail connectedState).2 ∧
    (∀ dev ip2 pt, SdkEvent.connectCall dev ip2 pt ∉
      (disconnect envFail connectedState).2) ∧
    (∀ dev, SdkEvent.newDevice dev ∉ (disconnect envFail connectedState).2) ∧
    (∀ url, SdkEvent.loadSdkScript url ∉
      (disconnect envFail connectedState).2) :=
  connect_self_heals_stale_session envFail 2 none none connectedState 1
    (by decide) (by decide)

lemma createPrinter_ok_shape {env : SdkEnv} {devId : String}
    {s : ClientState} {p : Nat} {s1 : ClientState} {es : List SdkEvent}
    (h : createPrinter env devId s = (Except.ok p, s1, es)) :
    s1.printer = some p ∧ s1.device = s.device := by
  unfold createPrinter at h
  cases hd : s.device with
  | none => rw [hd] at h; simp at h
  | some d =>
    rw [hd] at h
    dsimp only at h
    cases hp : s.printer with
    | some q =>
      rw [hp] at h
      simp only [Prod.mk.injEq, Except.ok.injEq] at h
      obtain ⟨h1, h2, h3⟩ := h
      subst h2
      subst h1
      exact ⟨hp, hd⟩
    | none =>
      rw [hp] at h
      dsimp only at h
      by_cases hok : env.createResult = "OK"
      · rw [if_pos hok] at h
        simp only [Prod.mk.injEq, Except.ok.injEq] at h
        obtain ⟨h1, h2, h3⟩ := h
        subst h2
        rw [← h1]
        exact ⟨rfl, rfl⟩
      · rw [if_neg hok] at h
        simp at h

lemma createPrinter_error_shape {env : SdkEnv} {devId : String}
    {s : ClientState} {m : String} {s1 : ClientState} {es : List SdkEvent}
    (h : createPrinter env devId s = (Except.error m, s1, es)) :
    s1 = s ∧ (s.device = none ∨ s.printer = none) := by
  unfold createPrinter at h
  cases hd : s.device with
  | none =>
    rw [hd] at h
    simp only [Prod.mk.injEq, Except.error.injEq] at h
    exact ⟨h.2.1.symm, Or.inl rfl⟩
  | some d =>
    rw [hd] at h
    dsimp only at h
    cases hp : s.printer with
    | some q => rw [hp] at h; simp at h
    | none =>
      rw [hp] at h
      dsimp only at h
      by_cases hok : env.createResult = "OK"
      · rw [if_pos hok] at h; simp at h
      · rw [if_neg hok] at h
        simp only [Prod.mk.injEq, Except.error.injEq] at h
        exact ⟨h.2.1.symm, Or.inr rfl⟩

lemma connectCore_ok_device_fst {env : SdkEnv} {f : Nat} {oi : Option String}
    {op : Option Int} {s : ClientState} {u : Unit}
    (h : (connectCore env f oi op s).1 = Except.ok u) :
    (connectCore env f oi op s).2.1.device = some f := by
  unfold connectCore at h ⊢
  cases hl : loadSdk env s with
  | mk r rest =>
    cases rest with
    | mk t es1 =>
      cases r with
      | error e => rw [hl] at h; simp at h
      | ok u2 =>
        rw [hl] at h
        dsimp only at h ⊢
        by_cases hip : (oi.getD t.ip) = ""
        · rw [if_pos hip] at h; simp at h
        · rw [if_neg hip] at h ⊢
          by_cases hE : env.epsonAfterLoad = true
          · rw [if_pos hE] at h ⊢
            by_cases hok : env.connectResult = "OK" ∨
                env.connectResult = "SSL_CONNECT_OK"
            · rw [if_pos hok]
            · rw [if_neg hok] at h; simp at h
          · rw [if_neg hE] at h; simp at h

lemma connect_ok_device {env : SdkEnv} {f : Nat} {oi : Option String}
    {op : Option Int} {s : ClientState} {u : Unit} {s1 : ClientState}
    {es : List SdkEvent}
    (h : connect env f oi op s = (Except.ok u, s1, es)) :
    s1.device.isSome = true := by
  unfold connect at h
  by_cases hc : isConnected env s = true
  · rw [if_pos hc] at h
    simp only [Prod.mk.injEq] at h
    rw [← h.2.1]
    exact isConnected_device_isSome hc
  · rw [if_neg hc] at h
    cases hd : s.device with
    | some d =>
      rw [hd] at h
      dsimp only at h
      simp only [Prod.mk.injEq] at h
      rw [← h.2.1, connectCore_ok_device_fst h.1]
      rfl
    | none =>
      rw [hd] at h
      dsimp only at h
      have h1 : (connectCore env f oi op s).1 = Except.ok u := by rw [h]
      have h2 : (connectCore env f oi op s).2.1 = s1 := by rw [h]
      rw [← h2, connectCore_ok_device_fst h1]
      rfl

lemma disconnect_device_none (env : SdkEnv) (s : ClientState) :
    (disconnect env s).1.device = none := by
  cases hd : s.device with
  | none => rw [disconnect_of_none hd]; exact hd
  | some d => rw [disconnect_of_some hd]

lemma hookConnect_invariant (b : SdkBehavior) (w : HookWorld) :
    (hookConnect b w).1.status = PRINTER_STATUS.CONNECTED ↔
      ((hookConnect b w).1.client.device.isSome = true ∧
       (hookConnect b w).1.client.printer.isSome = true ∧
       (hookConnect b w).1.live = true) := by
  unfold hookConnect
  cases hc : connect (mkHookEnv b w.live) b.freshDev none none w.client with
  | mk r rest =>
    cases rest with
    | mk c1 es =>
      cases r with
      | error e => simp [PRINTER_STATUS]
      | ok u =>
        dsimp only
        cases hcp : createPrinter (mkHookEnv b w.live) "local_printer" c1 with
        | mk r2 rest2 =>
          cases rest2 with
          | mk c2 es2 =>
            cases r2 with
            | ok pr =>
              dsimp only
              have h1 := createPrinter_ok_shape hcp
              have h2 := connect_ok_device hc
              simp [PRINTER_STATUS, h1.1, h1.2, h2]
            | error e2 =>
              dsimp only
              have h2 := connect_ok_device hc
              have h3 := createPrinter_error_shape hcp
              have hpn : c2.printer = none := by
                rcases h3.2 with h | h
                · rw [h] at h2; simp at h2
                · rw [h3.1]; exact h
              simp [PRINTER_STATUS, hpn]

lemma hookDisconnect_invariant (b : SdkBehavior) (w : HookWorld) :
    (hookDisconnect b w).status = PRINTER_STATUS.CONNECTED ↔
      ((hookDisconnect b w).client.device.isSome = true ∧
       (hookDisconnect b w).client.printer.isSome = true ∧
       (hookDisconnect b w).live = true) := by
  unfold hookDisconnect
  simp [PRINTER_STATUS, disconnect_device_none]

/-- The SDK behaviour of a fully successful connect-and-create cycle. -/
def okBehavior : SdkBehavior :=
  { epsonPresent := true, scriptLoadSucceeds := true, epsonAfterLoad := true,
    connectResult := "OK", createResult := "OK", createdPrinterId := 7,
    freshDev := 1, hasDeleteDevice := true, deleteThrows := false,
    disconnectThrows := false }

/-- The world after a fully successful hook `connect()` from a fresh
mount, once the underlying SDK session has stopped reporting live. -/
def droppedWorld : HookWorld :=
  { (hookConnect okBehavior (initWorld "/sdk.js" "10.0.0.5" 8043)).1 with
    live := false }

/-- C7 counterexample: `droppedWorld` is reachable through the lifecycle
binding's wrappers followed by the SDK session ceasing to report live;
there the projected status is still `connected` although the SDK no
longer reports the session as live (the hook's connection monitoring is
commented out), so the claimed if-and-only-if invariant fails. -/
theorem status_liveness_invariant_cex :
    HookReach droppedWorld ∧
    droppedWorld.status = PRINTER_STATUS.CONNECTED ∧
    droppedWorld.client.device ≠ none ∧
    droppedWorld.client.printer ≠ none ∧
    droppedWorld.live = false ∧
    ¬(droppedWorld.status = PRINTER_STATUS.CONNECTED ↔
      (droppedWorld.client.device.isSome = true ∧
       droppedWorld.client.printer.isSome = true ∧
       droppedWorld.live = true)) := by
  refine ⟨HookReach.drop (HookReach.stepConnect okBehavior
    (HookReach.init "/sdk.js" "10.0.0.5" 8043)), ?_, ?_, ?_, ?_, ?_⟩ <;>
    decide

/-- C7 (amended): the claimed equivalence — status `connected` iff both
handles are non-null and the SDK reports the session live — holds in
every state reachable through the lifecycle binding's connect and
disconnect wrappers alone, i.e. as long as the SDK's liveness only
changes as a result of those calls.  Once the session stops reporting
live between calls, only the handle part survives: in every reachable
state (liveness drops included), status `connected` still implies both
handles are non-null, but the status is not corrected (monitoring is
disabled), so the liveness direction of the equivalence fails. -/
theorem status_liveness_invariant_amended :
    (∀ w : HookWorld, HookReachCalls w →
      (w.status = PRINTER_STATUS.CONNECTED ↔
        (w.client.device.isSome = true ∧ w.client.printer.isSome = true ∧
         w.live = true))) ∧
    (∀ w : HookWorld, HookReach w → w.status = PRINTER_STATUS.CONNECTED →
      w.client.device.isSome = true ∧ w.client.printer.isSome = true) := by
  constructor
  · intro w h
    induction h with
    | init u i p => simp [initWorld, PRINTER_STATUS]
    | stepConnect b h ih => exact hookConnect_invariant b _
    | stepDisconnect b h ih => exact hookDisconnect_invariant b _
  · intro w h
    induction h with
    | init u i p =>
      intro hs
      exact absurd hs (by simp [initWorld, PRINTER_STATUS])
    | stepConnect b h ih =>
      intro hs
      have h2 := (hookConnect_invariant b _).mp hs
      exact ⟨h2.1, h2.2.1⟩
    | stepDisconnect b h ih =>
      intro hs
      have h2 := (hookDisconnect_invariant b _).mp hs
      exact ⟨h2.1, h2.2.1⟩
    | drop h ih => exact ih

theorem status_liveness_invariant_amended_witness :
    (initWorld "/sdk.js" "10.0.0.5" 8043).status = PRINTER_STATUS.CONNECTED ↔
      ((initWorld "/sdk.js" "10.0.0.5" 8043).client.device.isSome = true ∧
       (initWorld "/sdk.js" "10.0.0.5" 8043).client.printer.isSome = true ∧
       (initWorld "/sdk.js" "10.0.0.5" 8043).live = true) :=
  status_liveness_invariant_amended.1 (initWorld "/sdk.js" "10.0.0.5" 8043)
    (HookReachCalls.init "/sdk.js" "10.0.0.5" 8043)

theorem setEndpoint_replaces_host_guards_port_witness :
    (setEndpoint baseState "192.168.0.9" (JSValue.str "9100")).ip =
      "192.168.0.9" ∧
    (setEndpoint baseState "192.168.0.9" (JSValue.str "9100")).port = 8043 :=
  ⟨(setEndpoint_replaces_host_guards_port baseState "192.168.0.9"
      (JSValue.str "9100")).1,
   (setEndpoint_replaces_host_guards_port baseState "192.168.0.9"
      (JSValue.str "9100")).2.1 (by decide)⟩
